import Mathlib

/-
  Verification development for the Azimuth MUD runtime core
  (entity/containment model, capability mixins, command registry and
  command-resolution pipeline).

  Shallow embedding conventions:
  * Python strings are Lean `String`s; helper functions reproduce the exact
    Python primitives used by the code (`str.split()`, `str.split(sep)`,
    `x in s` substring test, `str.strip()`, `str.lower()`,
    `str.startswith`, `str.replace(old, new, 1)`).
  * Entities are identified by `Nat` ids; object-graph state is passed
    explicitly (`CState` for the location/contents graph).
  * Python truthiness of the optional grammar fields is modelled exactly:
    `None` and `""` are falsy for roles, `None` and `[]` are falsy for
    preposition lists.
  * Fallible operations return `Option`; a Python `AttributeError` crash is
    modelled as `none`.
-/

namespace Azimuth

/-! ### Python string primitives -/

/-- Python whitespace characters (the set relevant to one-line commands). -/
def pyIsSpace (c : Char) : Bool :=
  c = ' ' || c = '\t' || c = '\n' || c = '\r'

/-- Helper for `pySplitWS`: splits a character list on runs of whitespace,
discarding empty pieces, with `acc` the (reversed) current word. -/
def wsSplitGo : List Char → List Char → List (List Char)
  | [], acc => if acc.isEmpty then [] else [acc.reverse]
  | h :: t, acc =>
    if pyIsSpace h then
      if acc.isEmpty then wsSplitGo t [] else acc.reverse :: wsSplitGo t []
    else wsSplitGo t (h :: acc)

/-- Python `s.split()`: split on whitespace runs, no empty pieces. -/
def pySplitWS (s : String) : List String :=
  (wsSplitGo s.data []).map String.mk

/-- Helper for `pySplitOn`: one step consumes either a separator occurrence
(emitting the accumulated piece) or one character. The `fuel` argument
only forces structural recursion; every step consumes at least one
character, so with `fuel` at least the list length the zero-fuel case is
unreachable. -/
def splitOnGo (sep : List Char) : Nat → List Char → List Char → List (List Char)
  | _, [], acc => [acc]
  | 0, l, acc => [acc ++ l]
  | fuel + 1, h :: t, acc =>
    if sep.isPrefixOf (h :: t) then
      acc :: splitOnGo sep fuel (t.drop (sep.length - 1)) []
    else
      splitOnGo sep fuel t (acc ++ [h])

/-- Python `s.split(sep)` for a non-empty separator (left-to-right,
non-overlapping). -/
def pySplitOn (sep : String) (s : String) : List String :=
  if sep.data.isEmpty then [s]
  else (splitOnGo sep.data s.data.length s.data []).map String.mk

/-- Contiguous-sublist test over character lists. -/
def charInfix (needle : List Char) : List Char → Bool
  | [] => needle.isEmpty
  | h :: t => needle.isPrefixOf (h :: t) || charInfix needle t

/-- Python `needle in hay` (substring test). -/
def pyInStr (needle hay : String) : Bool :=
  charInfix needle.data hay.data

/-- Python `s.strip()`. -/
def pyStrip (s : String) : String :=
  String.mk (((s.data.dropWhile pyIsSpace).reverse.dropWhile pyIsSpace).reverse)

/-- Python `s.lower()`. -/
def pyLower (s : String) : String :=
  String.mk (s.data.map Char.toLower)

/-- Python `s.startswith(p)`. -/
def pyStartsWith (s p : String) : Bool :=
  p.data.isPrefixOf s.data

/-- Helper for `pyReplaceFirst`: removes the first occurrence of `pat`. -/
def replaceFirstGo (pat : List Char) : List Char → List Char
  | [] => []
  | h :: t =>
    if pat.isPrefixOf (h :: t) then (h :: t).drop pat.length
    else h :: replaceFirstGo pat t

/-- Python `s.replace(pat, "", 1)`: removes the first occurrence of `pat`. -/
def pyReplaceFirst (s pat : String) : String :=
  String.mk (replaceFirstGo pat.data s.data)

/-- The single-quote character (the say sigil), written via its code point. -/
def quoteChar : Char := Char.ofNat 39

/-- Python `s[0]` on a non-empty string (default is irrelevant: all uses are
guarded by non-emptiness). -/
def pyHead (s : String) : Char :=
  s.data.headD ' '

/-- Python `s[n:]`. -/
def pyDrop (s : String) (n : Nat) : String :=
  String.mk (s.data.drop n)

/-! ### Containment graph and `BaseThing.move_to` (entities.py 73-81)

The live object graph's ownership state: each Thing has an optional
`location` (id of its container) and a `contents` list of ids. -/

structure CState where
  location : Nat → Option Nat
  contents : Nat → List Nat

/-- Contents after `self.location.contents.remove(self)` — Python
`list.remove` deletes the first occurrence, which is `List.erase`. -/
def afterRemove (s : CState) (x : Nat) (p : Nat) : List Nat :=
  match s.location x with
  | some l => if p = l then (s.contents p).erase x else s.contents p
  | none => s.contents p

/-- First phase of `move_to`: `if self.location is not None:
self.location.contents.remove(self)`. (`on_leave` is a no-op for
containment in every variant.) -/
def removeFromOld (s : CState) (x : Nat) : CState :=
  { s with contents := afterRemove s x }

/-- Second phase: `self.location = where`. -/
def setLoc (s : CState) (x : Nat) (w : Option Nat) : CState :=
  { s with location := fun t => if t = x then w else s.location t }

/-- Third phase: `if self.location is not None:
self.location.contents.append(self)`. (`on_enter` is a no-op for
containment in every variant.) -/
def addToNew (s : CState) (x : Nat) : CState :=
  match s.location x with
  | some d => { s with contents := fun p => if p = d then s.contents p ++ [x] else s.contents p }
  | none => s

/-- Embeds `BaseThing.move_to(where)`: remove from the old container's contents,
update the location pointer, append to the new container's contents. -/
def move_to (s : CState) (x : Nat) (w : Option Nat) : CState :=
  addToNew (setLoc (removeFromOld s x) x w) x

/-- Containment exclusivity invariant: every Thing occurs exactly once in
the contents list owned by its location, and in no other contents list;
a Thing with no location occurs in no contents list. -/
def ContainmentInv (s : CState) : Prop :=
  ∀ t : Nat,
    (∀ l, s.location t = some l → (s.contents l).count t = 1) ∧
    (∀ p, s.location t ≠ some p → (s.contents p).count t = 0)

/-! ### Name matching: `BaseThing.match_object` (entities.py 97-120)

`match_object(name, player)` depends on the receiver's `name` and `aliases`
and on two identity facts about the caller: whether `player == self`
(for `"me"`) and whether `player` is given and `player.location == self`
(for `"here"`). Those two facts are passed as booleans. Return values:
1 = strong match, 2 = weak (prefix) match, 0 = no match. -/

/-- The candidate name list built by `match_object`: the lower-cased name,
each lower-cased alias, and (when the name contains a space) the last
whitespace-delimited word of the lower-cased name if not already present.
An all-whitespace name would raise `IndexError` in Python on
`namebits[-1]`; such names do not occur (every Thing has a default
name) and the `getLast?` guard leaves the list unchanged there. -/
def namesFor (selfName : String) (aliases : List String) : List String :=
  let names := pyLower selfName :: aliases.map pyLower
  if pyInStr " " selfName then
    match (pySplitWS (pyLower selfName)).getLast? with
    | some lastw => if lastw ∈ names then names else names ++ [lastw]
    | none => names
  else names

/-- Embeds `BaseThing.match_object`: `"me"` matches the player themself, `"here"`
matches the player's location; otherwise exact case-insensitive match
against `namesFor` is strong (1) and a prefix match is weak (2). -/
def match_object (selfName : String) (aliases : List String)
    (isPlayerSelf playerGiven isPlayerLoc : Bool) (name : String) : Nat :=
  if name = "me" ∧ isPlayerSelf then 1
  else if name = "here" ∧ playerGiven ∧ isPlayerLoc then 1
  else if pyLower name ∈ namesFor selfName aliases then 1
  else if (namesFor selfName aliases).any (fun n => pyStartsWith n (pyLower name)) then 2
  else 0

/-! ### Visibility: `Player.can_see` (entities.py 576-582)

`can_see(what)` is true when `what.location == self.location`, when
`what.location == self` (the item is in the player's inventory), or when
`what` is an Exit whose `source` is the player's location. Locations are
passed as optional ids, the player as an id. -/

def can_see (whatLocation : Option Nat) (whatIsExit : Bool) (whatSource : Option Nat)
    (selfLocation : Option Nat) (selfId : Nat) : Bool :=
  if whatLocation = selfLocation ∨ whatLocation = some selfId then true
  else if whatIsExit ∧ whatSource = selfLocation then true
  else false

/-! ### State toggles: `StateToggle`, `Openable`, `Lockable` (mixins.py)

The toggle state of one object; `pairedOpen` is the `is_open` flag of the
optional `open_paired_object` (kept inline because `Openable.open`'s only
effect on it is setting it to `True`). Messages are recorded by their
message keys, exactly the keys the code passes to `get_message`. -/

structure ToggleSt where
  isOpen : Bool
  isLocked : Bool
deriving DecidableEq

/-- The two toggle names the code uses (`"open"` and `"locked"`). -/
inductive Which
  | openT
  | lockedT
deriving DecidableEq

/-- The string interpolated into the f-string message keys. -/
def Which.str : Which → String
  | .openT => "open"
  | .lockedT => "locked"

/-- Python `getattr(self, f"is_{which}")`. -/
def getToggle (st : ToggleSt) : Which → Bool
  | .openT => st.isOpen
  | .lockedT => st.isLocked

/-- Python `setattr(self, f"is_{which}", b)`. -/
def setToggle (st : ToggleSt) (w : Which) (b : Bool) : ToggleSt :=
  match w with
  | .openT => { st with isOpen := b }
  | .lockedT => { st with isLocked := b }

/-- Result of a toggle call: new state, messages told to the player,
messages announced to the rest of the room, and the returned boolean. -/
structure TRes where
  st : ToggleSt
  playerMsgs : List String
  othersMsgs : List String
  ok : Bool
deriving DecidableEq

/-- Embeds `StateToggle.toggle_on(which, player)` (mixins.py 15-25). -/
def toggle_on (st : ToggleSt) (which : Which) (canSee : Bool) : TRes :=
  if ¬canSee then ⟨st, ["fail_visible"], [], false⟩
  else if getToggle st which then
    ⟨st, ["toggle_" ++ which.str ++ "_fail_true"], [], false⟩
  else
    ⟨setToggle st which true, ["toggle_" ++ which.str ++ "_on"],
      ["toggle_" ++ which.str ++ "_on_others"], true⟩

/-- Embeds `StateToggle.toggle_off(which, player)` (mixins.py 27-37). -/
def toggle_off (st : ToggleSt) (which : Which) (canSee : Bool) : TRes :=
  if ¬canSee then ⟨st, ["fail_visible"], [], false⟩
  else if ¬getToggle st which then
    ⟨st, ["toggle_" ++ which.str ++ "_fail_false"], [], false⟩
  else
    ⟨setToggle st which false, ["toggle_" ++ which.str ++ "_off"],
      ["toggle_" ++ which.str ++ "_off_others"], true⟩

/-- An openable/lockable object: its toggle state plus the `is_open` flag of
its `open_paired_object`, when one exists. -/
structure OpenableSt where
  st : ToggleSt
  pairedOpen : Option Bool
deriving DecidableEq

/-- Embeds `Openable.open` (mixins.py 69-73): toggle on; on success also force the
paired object open. -/
def openableOpen (o : OpenableSt) (canSee : Bool) : OpenableSt × TRes :=
  let r := toggle_on o.st .openT canSee
  (⟨r.st, if r.ok then o.pairedOpen.map (fun _ => true) else o.pairedOpen⟩, r)

/-- Embeds `Openable.close` (mixins.py 75-80). -/
def openableClose (o : OpenableSt) (canSee : Bool) : OpenableSt × TRes :=
  let r := toggle_off o.st .openT canSee
  (⟨r.st, if r.ok then o.pairedOpen.map (fun _ => false) else o.pairedOpen⟩, r)

/-- Embeds `Lockable.lock` (mixins.py 134-140). The guard is `if self.open:` where
`open` is the *method* `Lockable.open`, so in Python the condition is a
bound-method object and is always truthy: the `lock_fail_open` message is
always told and the `elif` branch (`lockedByOther`) is never evaluated.
`self.toggle_on("locked", player)` is not inside an `else`, so it then
runs unconditionally. -/
def lockableLock (o : OpenableSt) (canSee : Bool) (lockedByOther : Bool) :
    OpenableSt × List String :=
  let r := toggle_on o.st .lockedT canSee
  (⟨r.st, o.pairedOpen⟩, "lock_fail_open" :: r.playerMsgs)

/-- Embeds `Lockable.unlock` (mixins.py 142-147): tell `unlock_fail_player` when
someone else locked it, then toggle off unconditionally (again no
`else`). -/
def lockableUnlock (o : OpenableSt) (canSee : Bool) (lockedByOther : Bool) :
    OpenableSt × List String :=
  let r := toggle_off o.st .lockedT canSee
  (⟨r.st, o.pairedOpen⟩,
    (if lockedByOther then ["unlock_fail_player"] else []) ++ r.playerMsgs)

/-- Embeds `Lockable.open` (mixins.py 127-132), which evaluates `if self.locked:` but no
`locked` attribute or property exists anywhere (the field is
`is_locked`), so every call raises `AttributeError` before reaching any
message or state change; the crash is modelled as `none`. -/
def lockableOpen (o : OpenableSt) (canSee : Bool) : Option (OpenableSt × TRes) :=
  none

/-! ### Command tables: `BaseThing.get_commands` / `register_command`
(entities.py 151-185)

A command table maps verb strings to lists of grammar-entry ids (the dict
`verb -> list of info`). `classTables` is the sequence of
`default_commands` dicts of the reversed method-resolution order, exactly
the list the `for c in classes` loop walks. Python's `deepcopy` of class
entries and the list aliasing of `cmds[k] = v` have no observable effect
at the inputs considered here (the relevant verb is absent from the cache
when `register_command` runs). -/

/-- Lookup in an association-list dict. -/
def tblGet (t : List (String × List Nat)) (k : String) : Option (List Nat) :=
  (t.find? (fun pr => pr.1 = k)).map Prod.snd

/-- The `try: cmds[k].extend(v) / except: cmds[k] = v` merge step. -/
def tblExtend (t : List (String × List Nat)) (k : String) (v : List Nat) :
    List (String × List Nat) :=
  match tblGet t k with
  | some _ => t.map (fun pr => if pr.1 = k then (pr.1, pr.2 ++ v) else pr)
  | none => t ++ [(k, v)]

/-- Merge one dict into the accumulating table, key by key. -/
def tblMerge (acc tbl : List (String × List Nat)) : List (String × List Nat) :=
  tbl.foldl (fun a pr => tblExtend a pr.1 pr.2) acc

/-- The table `get_commands` computes on a cache miss: all class
`default_commands` merged base-first, then the instance `commands`. -/
def buildCommands (classTables : List (List (String × List Nat)))
    (instanceCmds : List (String × List Nat)) : List (String × List Nat) :=
  tblMerge (classTables.foldl tblMerge []) instanceCmds

/-- Per-instance command state: `self.commands` (instance-level custom
commands) and `self.commands_cached` (empty list = the falsy `{}`). -/
structure CmdCacheSt where
  commands : List (String × List Nat)
  cached : List (String × List Nat)
deriving DecidableEq

/-- Embeds `BaseThing.get_commands(match, allow_cached)`: serve the cached table
when allowed and non-empty, otherwise rebuild and fill the cache; with a
`match` argument return the single-verb dict
`{match: cmds.get(match, [])}`. -/
def get_commands (classTables : List (List (String × List Nat)))
    (st : CmdCacheSt) (mtch : Option String) (allowCached : Bool) :
    List (String × List Nat) × CmdCacheSt :=
  let hit := allowCached ∧ st.cached ≠ []
  let cmds := if hit then st.cached else buildCommands classTables st.commands
  let st' := if hit then st else { st with cached := cmds }
  match mtch with
  | none => (cmds, st')
  | some v => ([(v, (tblGet cmds v).getD [])], st')

/-- Embeds `BaseThing.register_command(info)`: append the entry to
`self.commands[verb]` for each verb; `commands_cached` is not touched. -/
def register_command (st : CmdCacheSt) (verbs : List String) (infoId : Nat) :
    CmdCacheSt :=
  { st with commands := verbs.foldl (fun c vb => tblExtend c vb [infoId]) st.commands }

/-! ### Player serialization: `Player.to_dict` / `Player.__init__`
(entities.py 52-63, 536-570)

Only the fields that `to_dict` writes or `__init__` reads are modelled;
object-valued fields are carried as ids, matching the record format. -/

/-- The persisted record a Player serializes to (`to_dict` output). -/
structure PlayerDict where
  id : String
  cls : String
  name : String
  aliases : List String
  description : String
  location : Option String
  contents : List String
  messages : List (String × String)
  username : String
  password_hash : String
  home : Option String
  last_location : Option String
deriving DecidableEq

/-- In-memory Player state relevant to serialization. -/
structure PlayerSt where
  id : String
  name : String
  aliases : List String
  description : String
  messages : List (String × String)
  location : Option String
  contents : List String
  username : String
  password_hash : String
  home : Option String
  last_location : Option String
deriving DecidableEq

/-- Embeds `Player.to_dict` (via `BaseThing.to_dict`): every field including
`home` (as `self.home.id if self.home else None`) and `last_location`. -/
def playerToDict (p : PlayerSt) : PlayerDict :=
  { id := p.id
    cls := "Player"
    name := p.name
    aliases := p.aliases
    description := p.description
    location := p.location
    contents := p.contents
    messages := p.messages
    username := p.username
    password_hash := p.password_hash
    home := p.home
    last_location := p.last_location }

/-- Reconstruction from a record: `Player.__init__` sets `self.home = None`
and never reads `data["home"]`; everything else is restored from the
record (`location`/`contents` through `world.get_object` + `move_to`,
which preserve the ids assuming the referenced entities load). -/
def playerFromData (d : PlayerDict) : PlayerSt :=
  { id := d.id
    name := d.name
    aliases := d.aliases
    description := d.description
    messages := d.messages
    location := d.location
    contents := d.contents
    username := d.username
    password_hash := d.password_hash
    home := none
    last_location := d.last_location }

/-! ### Command resolution: `World.process_player_command` (world.py 292-392)

A grammar entry is the dict `{verb, dobj, prep, iobj, func}` built by
`make_command`; `func` is an opaque handler id. `dobj`/`iobj` are strings
or `None`; their Python truthiness (`None` and `""` falsy) is modelled by
`truthyStr`. `prep` is a list of strings or `None` (`truthyPreps`). -/

structure Entry where
  dobj : Option String
  prep : Option (List String)
  iobj : Option String
  func : Nat
deriving DecidableEq

/-- Python truthiness of an optional role string. -/
def truthyStr : Option String → Bool
  | none => false
  | some s => s ≠ ""

/-- Python truthiness of an optional preposition list. -/
def truthyPreps : Option (List String) → Bool
  | none => false
  | some l => l ≠ []

/-- Condition `not any` over dobj, prep and iobj: the entry requires a bare
verb. -/
def entryAny (e : Entry) : Bool :=
  truthyStr e.dobj || truthyPreps e.prep || truthyStr e.iobj

/-- A candidate consulted by the search loop: its id, the data
`match_object` reads (name and aliases), whether it *is* the invoking
player (`s == player`), whether it is the player's location, and its
merged verb table (the result of `get_commands`). -/
structure Cand where
  cid : Nat
  name : String
  aliases : List String
  isPlayer : Bool
  isPlayerLoc : Bool
  cmds : List (String × List Entry)
deriving DecidableEq

/-- Embeds `s.get_commands(w1)` followed by `cmds.get(w1, [])`. -/
def lookupVerb (c : Cand) (verb : String) : List Entry :=
  ((c.cmds.find? (fun pr => pr.1 = verb)).map Prod.snd).getD []

/-- The truthiness test `s.match_object(text, player)` as used by the
resolution loop (`player` is always given there). -/
def candMatchB (c : Cand) (text : String) : Bool :=
  match_object c.name c.aliases c.isPlayer true c.isPlayerLoc text ≠ 0

/-- Everything `process_player_command` can do with one line of input.
Handler invocations record the candidate id, the handler id, the string
arguments passed positionally, the matched preposition and the verb. -/
inductive Outcome
  | badInput
  | saidMsg (text : String)
  | emoted (text : String)
  | evaled (text : String)
  | usedExit (exitId : Nat)
  | noSuchExit
  | yuck (bits : List String)
  | invoked (cand : Nat) (func : Nat) (args : List String) (prep : Option String)
      (verb : String)
  | failMatch
deriving DecidableEq

/-- The `for p in c["prep"]` loop (world.py 344-381). For each accepted
preposition that occurs as a substring of the remaining text, split on
`" p "`; a split that does not yield exactly two pieces aborts the whole
resolution (`player.tell(f"yuck: ...")`; `return`). Otherwise check the
role constraints, the player-only `any`/`any` case, then the
`"self"`-role cases; fall through to the next preposition on failure. -/
def entryPrepTry (c : Cand) (e : Entry) (argRest w1 : String) :
    List String → Option Outcome
  | [] => none
  | p :: ps =>
    if pyInStr p argRest then
      match pySplitOn (" " ++ p ++ " ") argRest with
      | [d0, i0] =>
        let d := pyStrip d0
        let i := pyStrip i0
        if (¬truthyStr e.dobj ∧ d ≠ "") ∨ (truthyStr e.dobj ∧ d = "") then
          entryPrepTry c e argRest w1 ps
        else if (¬truthyStr e.iobj ∧ i ≠ "") ∨ (truthyStr e.iobj ∧ i = "") then
          entryPrepTry c e argRest w1 ps
        else if c.isPlayer ∧ e.dobj = some "any" ∧ d ≠ "" ∧ e.iobj = some "any" ∧ i ≠ "" then
          some (.invoked c.cid e.func [d, i] (some p) w1)
        else if e.dobj = some "self" then
          if candMatchB c d then some (.invoked c.cid e.func [i] (some p) w1)
          else entryPrepTry c e argRest w1 ps
        else if e.iobj = some "self" then
          if candMatchB c i then
            if d = "" then some (.invoked c.cid e.func [] (some p) w1)
            else some (.invoked c.cid e.func [d] (some p) w1)
          else entryPrepTry c e argRest w1 ps
        else entryPrepTry c e argRest w1 ps
      | bits => some (.yuck bits)
    else entryPrepTry c e argRest w1 ps

/-- The `for c in cmds.get(w1, [])` loop (world.py 338-391): a fully bare
entry fires on a bare verb; a bare line matches nothing else; an entry
with prepositions runs the preposition loop; otherwise the whole
remaining text is the direct object (`"self"` must name-match the
candidate, `"any"` passes it through). -/
def entriesTry (c : Cand) (argRest w1 : String) (len1 : Bool) :
    List Entry → Option Outcome
  | [] => none
  | e :: es =>
    if len1 ∧ ¬entryAny e then some (.invoked c.cid e.func [] none w1)
    else if len1 then entriesTry c argRest w1 len1 es
    else
      match e.prep with
      | some ps =>
        match entryPrepTry c e argRest w1 ps with
        | some o => some o
        | none => entriesTry c argRest w1 len1 es
      | none =>
        if e.dobj = some "self" ∧ candMatchB c argRest then
          some (.invoked c.cid e.func [] none w1)
        else if e.dobj = some "any" then
          some (.invoked c.cid e.func [argRest] none w1)
        else entriesTry c argRest w1 len1 es

/-- One candidate's attempt: its grammar entries for the verb, in table
order. -/
def candTry (c : Cand) (argRest w1 : String) (len1 : Bool) : Option Outcome :=
  entriesTry c argRest w1 len1 (lookupVerb c w1)

/-- The `for s in search_order` loop: first candidate producing an outcome
wins; otherwise the generic `fail_command_match` message. -/
def candsTry (argRest w1 : String) (len1 : Bool) : List Cand → Outcome
  | [] => .failMatch
  | c :: cs =>
    match candTry c argRest w1 len1 with
    | some o => o
    | none => candsTry argRest w1 len1 cs

/-- Embeds `self.exit_names`: the directional-shorthand dict (world.py 39-50). -/
def exitAbbrevs : List (String × String) :=
  [("n", "north"), ("s", "south"), ("e", "east"), ("w", "west"),
   ("ne", "northeast"), ("nw", "northwest"), ("se", "southeast"),
   ("sw", "southwest"), ("up", "up"), ("down", "down")]

/-- Association-list lookup for string-keyed dicts. -/
def lookupStr (t : List (String × String)) (k : String) : Option String :=
  (t.find? (fun pr => pr.1 = k)).map Prod.snd

/-- The world as a search candidate: `World.get_commands` returns `{}`
(world.py 84-85), so it carries an empty verb table. -/
def worldCand : Cand :=
  { cid := 0, name := "", aliases := [], isPlayer := false, isPlayerLoc := false,
    cmds := [] }

/-- The state `process_player_command` reads: the player, their location,
the player's contents, the location's contents, the location's exits
(in `exits.values()` order) and the exit-name dict of the location. -/
structure WState where
  player : Cand
  location : Cand
  playerContents : List Cand
  locationContents : List Cand
  locationExits : List Cand
  exitsMap : List (String × Nat)
deriving DecidableEq

/-- Embeds `search_order` (world.py 307-314): the player themself, the player's
location, the player's inventory, the location's contents, the
location's exits, and finally the World. -/
def searchOrder (w : WState) : List Cand :=
  w.player :: w.location ::
    (w.playerContents ++ w.locationContents ++ w.locationExits ++ [worldCand])

/-- Exit lookup for direction words: `player.location.exits.get(argstr)`. -/
def lookupExit (t : List (String × Nat)) (k : String) : Option Nat :=
  (t.find? (fun pr => pr.1 = k)).map Prod.snd

/-- Body of `process_player_command` once the line is tokenized. An empty
word list means `words[0]` would raise `IndexError` (`badInput`).
Order of branches mirrors world.py 304-392: directional-shorthand
normalization, the say/emote/eval sigils and verb forms, direction words
resolving to exits, then the generic candidate search on the verb and
the remainder `argstr.replace(w1, "", 1).strip()`. -/
def processWords (w : WState) (argstr0 : String) : List String → Outcome
  | [] => .badInput
  | w1 :: wrest =>
    let ch0 := pyHead argstr0
    let argstr :=
      match lookupStr exitAbbrevs argstr0 with
      | some full => full
      | none => argstr0
    if ch0 = quoteChar ∨ ch0 = '"' then .saidMsg (pyDrop argstr 1)
    else if w1 = "say" then .saidMsg (pyStrip (pyDrop argstr 4))
    else if ch0 = ':' ∨ ch0 = ';' then .emoted (pyDrop argstr 1)
    else if w1 = "emote" then .emoted (pyStrip (pyDrop argstr 6))
    else if ch0 = '|' then .evaled (pyDrop argstr 1)
    else if w1 = "eval" then .evaled (pyStrip (pyDrop argstr 5))
    else if argstr ∈ exitAbbrevs.map Prod.snd then
      match lookupExit w.exitsMap argstr with
      | some eid => .usedExit eid
      | none => .noSuchExit
    else
      candsTry (pyStrip (pyReplaceFirst argstr w1)) w1 (wrest = []) (searchOrder w)

/-- Embeds `World.process_player_command(player_id, argstr)` for a logged-in
player. -/
def processCommand (w : WState) (argstr : String) : Outcome :=
  processWords w argstr (pySplitWS argstr)

/-! ### `Containable.take_from` and the container scenario (mixins.py
193-229)

`take_from(player, target)` searches `self.contents` for the first item
matching `target` (`Containable.my_match_object`) and moves it to the
player; no `is_open` test appears anywhere on this path. Item names and
aliases are looked up by id. -/

/-- Embeds `Containable.my_match_object(name, player)`: the first element of the
contents list that `match_object`-matches. -/
def containableMatch (conts : List Nat) (nameOf : Nat → String)
    (aliasOf : Nat → List String) (playerId : Nat) (playerLoc : Option Nat)
    (target : String) : Option Nat :=
  conts.find? (fun x =>
    match_object (nameOf x) (aliasOf x) (x = playerId) true (playerLoc = some x) target ≠ 0)

/-- Embeds `Containable.take_from`: match inside the container, then
`what.move_to(player)` and the `take_from` success message; a failed
match only produces the f-string complaint. The container's open state
is *not* consulted. -/
def take_from (cs : CState) (nameOf : Nat → String) (aliasOf : Nat → List String)
    (selfId playerId : Nat) (playerLoc : Option Nat) (target : String) :
    CState × List String :=
  match containableMatch (cs.contents selfId) nameOf aliasOf playerId playerLoc target with
  | none => (cs, ["cant_see_matching_in"])
  | some what => (move_to cs what (some playerId), ["take_from"])

/-! ### Concrete container scenario (spec section 8; world.py setup)

Ids: 0 = World, 1 = player, 2 = room, 3 = chest, 4 = gem. The chest is an
`OpenableContainer`; its merged table for "take" holds `Containable.
take_from` (handler 10) before `Object.get` (handler 11), matching the
base-first class merge (Containable precedes Object in the reversed
method-resolution order); "open" holds `Openable.open` (handler 12). -/

def takeFromEntry : Entry :=
  { dobj := some "Object", prep := some ["from"], iobj := some "self", func := 10 }

def getEntry : Entry :=
  { dobj := some "self", prep := none, iobj := none, func := 11 }

def openEntry : Entry :=
  { dobj := some "self", prep := none, iobj := none, func := 12 }

def c4Player : Cand :=
  { cid := 1, name := "Player", aliases := [], isPlayer := true,
    isPlayerLoc := false, cmds := [] }

def c4Room : Cand :=
  { cid := 2, name := "Treasure Room", aliases := [], isPlayer := false,
    isPlayerLoc := true, cmds := [] }

def c4Chest : Cand :=
  { cid := 3, name := "chest", aliases := [], isPlayer := false,
    isPlayerLoc := false,
    cmds := [("take", [takeFromEntry, getEntry]), ("get", [takeFromEntry, getEntry]),
             ("remove", [takeFromEntry]), ("pick", [getEntry]),
             ("open", [openEntry])] }

def c4World : WState :=
  { player := c4Player, location := c4Room, playerContents := [],
    locationContents := [c4Chest, c4Player], locationExits := [], exitsMap := [] }

/-- Containment state of the scenario: the player and the chest are in the
room, the gem is in the chest. -/
def c4CS : CState :=
  { location := fun n =>
      if n = 1 then some 2 else if n = 3 then some 2 else if n = 4 then some 3 else none
    contents := fun n =>
      if n = 2 then [3, 1] else if n = 3 then [4] else [] }

def c4NameOf : Nat → String :=
  fun n => if n = 1 then "Player" else if n = 2 then "Treasure Room"
    else if n = 3 then "chest" else if n = 4 then "gem" else ""

def c4AliasOf : Nat → List String := fun _ => []

/-- The chest's Openable state while closed (and unlocked). -/
def c4ChestClosed : OpenableSt := { st := { isOpen := false, isLocked := false }, pairedOpen := none }

/-! ### Concrete resolution-order scenario (spec section 8, ambiguity
resolution order)

Two candidates — the player's location and an item in the room — both
register a bare grammar for the verb "ping" (handlers 20 and 21); the
player registers none. -/

def pingEntry : Entry := { dobj := none, prep := none, iobj := none, func := 20 }

def pingEntry2 : Entry := { dobj := none, prep := none, iobj := none, func := 21 }

def c2Player : Cand :=
  { cid := 1, name := "Player", aliases := [], isPlayer := true,
    isPlayerLoc := false, cmds := [] }

def c2Loc : Cand :=
  { cid := 2, name := "Hall", aliases := [], isPlayer := false,
    isPlayerLoc := true, cmds := [("ping", [pingEntry])] }

def c2Item : Cand :=
  { cid := 5, name := "gong", aliases := [], isPlayer := false,
    isPlayerLoc := false, cmds := [("ping", [pingEntry2])] }

def c2W : WState :=
  { player := c2Player, location := c2Loc, playerContents := [],
    locationContents := [c2Item], locationExits := [], exitsMap := [] }

/-- A concrete Player state with a home set (as `@sethome` would leave it). -/
def c5Player : PlayerSt :=
  { id := "p1", name := "Alice", aliases := [], description := "a player",
    messages := [], location := some "room1", contents := ["sword1"],
    username := "alice", password_hash := "hash", home := some "home1",
    last_location := some "room1" }

/-! ## Theorems -/


theorem move_to_location (s : CState) (x : Nat) (w : Option Nat) (t : Nat) :
    (move_to s x w).location t = if t = x then w else s.location t := by
  unfold move_to addToNew setLoc removeFromOld
  cases w <;> simp

theorem move_to_contents_some (s : CState) (x d p : Nat) :
    (move_to s x (some d)).contents p =
      if p = d then afterRemove s x p ++ [x] else afterRemove s x p := by
  unfold move_to addToNew setLoc removeFromOld
  simp

theorem move_to_contents_none (s : CState) (x p : Nat) :
    (move_to s x none).contents p = afterRemove s x p := by
  unfold move_to addToNew setLoc removeFromOld
  simp

theorem count_afterRemove_self (s : CState) (x p : Nat) (h : ContainmentInv s) :
    (afterRemove s x p).count x = 0 := by
  cases hl : s.location x with
  | some l =>
    by_cases hp : p = l
    · subst hp
      have h1 := (h x).1 p hl
      simp [afterRemove, hl, List.count_erase_self]
      omega
    · simp only [afterRemove, hl, if_neg hp]
      refine (h x).2 p ?_
      rw [hl]
      simp
      omega
  | none =>
    simp only [afterRemove, hl]
    refine (h x).2 p ?_
    rw [hl]
    simp

theorem count_afterRemove_other (s : CState) (x p t : Nat) (ht : t ≠ x) :
    (afterRemove s x p).count t = (s.contents p).count t := by
  cases hl : s.location x with
  | some l =>
    by_cases hp : p = l
    · simp [afterRemove, hl, hp, List.count_erase_of_ne ht]
    · simp [afterRemove, hl, hp]
  | none => simp [afterRemove, hl]

/-- Claim C1: `move_to` preserves containment exclusivity: starting from a
state where every Thing appears exactly once in its location's contents
list and in no other contents list (and nowhere when its location is
unset), any `move_to(where)` call re-establishes the same invariant. -/
theorem move_to_preserves_containment (s : CState) (x : Nat) (w : Option Nat)
    (h : ContainmentInv s) : ContainmentInv (move_to s x w) := by
  intro t
  by_cases ht : t = x
  · subst ht
    constructor
    · intro l hl
      rw [move_to_location, if_pos rfl] at hl
      subst hl
      rw [move_to_contents_some, if_pos rfl, List.count_append,
        count_afterRemove_self s t l h]
      simp
    · intro p hp
      rw [move_to_location, if_pos rfl] at hp
      cases w with
      | some d =>
        have hpd : p ≠ d := fun hc => hp (by rw [hc])
        rw [move_to_contents_some, if_neg hpd]
        exact count_afterRemove_self s t p h
      | none =>
        rw [move_to_contents_none]
        exact count_afterRemove_self s t p h
  · constructor
    · intro l hl
      rw [move_to_location, if_neg ht] at hl
      have hcount : (afterRemove s x l).count t = 1 := by
        rw [count_afterRemove_other s x l t ht]
        exact (h t).1 l hl
      cases w with
      | some d =>
        by_cases hld : l = d
        · rw [move_to_contents_some, if_pos hld, List.count_append, hcount]
          simp [List.count_cons, ht]
        · rw [move_to_contents_some, if_neg hld]
          exact hcount
      | none =>
        rw [move_to_contents_none]
        exact hcount
    · intro p hp
      rw [move_to_location, if_neg ht] at hp
      have hcount : (afterRemove s x p).count t = 0 := by
        rw [count_afterRemove_other s x p t ht]
        exact (h t).2 p hp
      cases w with
      | some d =>
        by_cases hpd : p = d
        · rw [move_to_contents_some, if_pos hpd, List.count_append, hcount]
          simp [List.count_cons, ht]
        · rw [move_to_contents_some, if_neg hpd]
          exact hcount
      | none =>
        rw [move_to_contents_none]
        exact hcount

/-- Witness for C1: the invariant holds in the empty graph and is carried
through a concrete `move_to` of Thing 5 into Thing 3. -/
theorem move_to_preserves_containment_witness :
    ContainmentInv (move_to ⟨fun _ => none, fun _ => []⟩ 5 (some 3)) := by
  refine move_to_preserves_containment ⟨fun _ => none, fun _ => []⟩ 5 (some 3) ?_
  intro t
  constructor
  · intro l hl
    exact Option.noConfusion hl
  · intro p _
    rfl

/-! ### C9: name matching -/

/-- Claim C9 counterexample: `match_object` can return a strong match (1)
for a string that equals none of the name, aliases or last word of the
name: when the string is `"me"` and the receiver is the invoking player
themself. So strong matches do not happen *exactly* for name/alias/last-
word equality as claimed. -/
theorem match_object_me_counterexample :
    match_object "Bob" [] true true false "me" = 1 ∧
    pyLower "me" ∉ namesFor "Bob" [] ∧
    ¬(namesFor "Bob" []).any (fun n => pyStartsWith n (pyLower "me")) := by
  decide

/-- Claim C9 (amended): for every Thing and non-empty string `s`,
`match_object` returns 1 exactly when `s` is `"me"` and the Thing is the
player themself, or `s` is `"here"` and the Thing is the given player's
location, or `s` lower-cased equals the name, an alias, or the last
whitespace-delimited word of the name (`namesFor`); it returns 2 exactly
when none of those hold and `s` lower-cased is a proper prefix of one of
those strings; and the resolution pipeline's guard `candMatchB` treats
strong (1) and weak (2) matches identically, as a bare match. -/
theorem match_object_characterization :
    (∀ (selfName : String) (aliases : List String)
      (isPlayerSelf playerGiven isPlayerLoc : Bool) (name : String),
      name ≠ "" →
      ((match_object selfName aliases isPlayerSelf playerGiven isPlayerLoc name = 1 ↔
        ((name = "me" ∧ isPlayerSelf = true) ∨
         (name = "here" ∧ playerGiven = true ∧ isPlayerLoc = true) ∨
         pyLower name ∈ namesFor selfName aliases)) ∧
       (match_object selfName aliases isPlayerSelf playerGiven isPlayerLoc name = 2 ↔
        (¬(name = "me" ∧ isPlayerSelf = true) ∧
         ¬(name = "here" ∧ playerGiven = true ∧ isPlayerLoc = true) ∧
         pyLower name ∉ namesFor selfName aliases ∧
         (namesFor selfName aliases).any
           (fun n => pyStartsWith n (pyLower name)) = true)))) ∧
    (∀ (c : Cand) (s : String),
      match_object c.name c.aliases c.isPlayer true c.isPlayerLoc s = 1 ∨
        match_object c.name c.aliases c.isPlayer true c.isPlayerLoc s = 2 →
      candMatchB c s = true) := by
  constructor
  · intro selfName aliases isPlayerSelf playerGiven isPlayerLoc name _
    constructor
    · unfold match_object
      split_ifs with h1 h2 h3 h4 <;> simp_all
    · unfold match_object
      split_ifs with h1 h2 h3 h4 <;> simp_all
  · intro c s h
    rcases h with h | h <;> simp [candMatchB, h]

/-- Witness for C9: the characterization applied at the chest ("chest" is
the last word of "sturdy chest": strong match) and at a proper prefix
("stur": weak match). -/
theorem match_object_characterization_witness :
    (match_object "sturdy chest" [] false true false "chest" = 1 ↔
      (("chest" = "me" ∧ false = true) ∨
       ("chest" = "here" ∧ true = true ∧ false = true) ∨
       pyLower "chest" ∈ namesFor "sturdy chest" [])) ∧
    (match_object "sturdy chest" [] false true false "stur" = 2 ↔
      (¬("stur" = "me" ∧ false = true) ∧
       ¬("stur" = "here" ∧ true = true ∧ false = true) ∧
       pyLower "stur" ∉ namesFor "sturdy chest" [] ∧
       (namesFor "sturdy chest" []).any
         (fun n => pyStartsWith n (pyLower "stur")) = true)) :=
  ⟨(match_object_characterization.1 "sturdy chest" [] false true false "chest"
      (by decide)).1,
   (match_object_characterization.1 "sturdy chest" [] false true false "stur"
      (by decide)).2⟩

/-! ### C3: Lockable preconditions -/

/-- Claim C3 evaluation at the failing input: on a visible Lockable with
`is_open = true` and `is_locked = false`, `lock` tells the player the
`lock_fail_open` failure message and *still* sets `is_locked` to true
(the toggle call is outside any `else` and the guard tests the bound
method `self.open`, which is always truthy); and `Lockable.open` crashes
with `AttributeError` (reading the non-existent attribute `locked`)
instead of emitting `open_fail_locked`, for any state. -/
theorem lockable_lock_locks_despite_open :
    (lockableLock ⟨⟨true, false⟩, none⟩ true false).1.st.isLocked = true ∧
    (lockableLock ⟨⟨true, false⟩, none⟩ true false).2 =
      ["lock_fail_open", "toggle_locked_on"] ∧
    lockableOpen ⟨⟨true, true⟩, none⟩ true = none := by
  decide

/-! ### C6: Openable idempotence guards -/

/-- Claim C6 counterexample: for an already-open Openable that the invoking
player cannot see, `open` does not send the "already open" signal — it
sends `fail_visible` instead (the state is still unchanged). -/
theorem openable_open_invisible_counterexample :
    (openableOpen ⟨⟨true, false⟩, none⟩ false).2.playerMsgs = ["fail_visible"] ∧
    "toggle_open_fail_true" ∉ (openableOpen ⟨⟨true, false⟩, none⟩ false).2.playerMsgs ∧
    (openableOpen ⟨⟨true, false⟩, none⟩ false).1 = ⟨⟨true, false⟩, none⟩ := by
  decide

/-- Claim C6 (amended): provided the invoking player can see the Openable,
calling `open` on an already-open one leaves the state unchanged and
sends exactly the `toggle_open_fail_true` ("already open") message, and
calling `close` on an already-closed one leaves the state unchanged and
sends `toggle_open_fail_false`; when the player cannot see it the state
is likewise unchanged but the message is `fail_visible`. -/
theorem openable_toggle_idempotence_guard :
    ∀ o : OpenableSt,
      (o.st.isOpen = true →
        openableOpen o true = (o, ⟨o.st, ["toggle_open_fail_true"], [], false⟩)) ∧
      (o.st.isOpen = false →
        openableClose o true = (o, ⟨o.st, ["toggle_open_fail_false"], [], false⟩)) ∧
      openableOpen o false = (o, ⟨o.st, ["fail_visible"], [], false⟩) ∧
      openableClose o false = (o, ⟨o.st, ["fail_visible"], [], false⟩) := by
  intro o
  refine ⟨fun h => ?_, fun h => ?_, ?_, ?_⟩ <;>
    simp [openableOpen, openableClose, toggle_on, toggle_off, getToggle, *] <;>
    decide

/-- Witness for C6: the guard applied to a concrete open chest. -/
theorem openable_toggle_idempotence_guard_witness :
    openableOpen ⟨⟨true, false⟩, some false⟩ true =
      (⟨⟨true, false⟩, some false⟩,
        ⟨⟨true, false⟩, ["toggle_open_fail_true"], [], false⟩) :=
  (openable_toggle_idempotence_guard ⟨⟨true, false⟩, some false⟩).1 rfl

/-! ### C10: implicit visibility precondition -/

/-- Claim C10: every state-toggle operation is gated on `player.can_see`:
when `can_see` is false, `toggle_on`/`toggle_off` (hence `open`, `close`,
`lock` and `unlock`) leave the toggle state unchanged and tell the
player the `fail_visible` message, regardless of the stated
preconditions. (`lock`/`unlock` may prepend their own failure chatter,
but the state is untouched and `fail_visible` is sent.) -/
theorem toggles_invisible_fail_visible :
    ∀ (o : OpenableSt) (which : Which) (lockedByOther : Bool)
      (whatLoc : Option Nat) (whatIsExit : Bool) (whatSource : Option Nat)
      (selfLoc : Option Nat) (selfId : Nat),
      can_see whatLoc whatIsExit whatSource selfLoc selfId = false →
      toggle_on o.st which (can_see whatLoc whatIsExit whatSource selfLoc selfId) =
        ⟨o.st, ["fail_visible"], [], false⟩ ∧
      toggle_off o.st which (can_see whatLoc whatIsExit whatSource selfLoc selfId) =
        ⟨o.st, ["fail_visible"], [], false⟩ ∧
      openableOpen o (can_see whatLoc whatIsExit whatSource selfLoc selfId) =
        (o, ⟨o.st, ["fail_visible"], [], false⟩) ∧
      openableClose o (can_see whatLoc whatIsExit whatSource selfLoc selfId) =
        (o, ⟨o.st, ["fail_visible"], [], false⟩) ∧
      ((lockableLock o (can_see whatLoc whatIsExit whatSource selfLoc selfId)
          lockedByOther).1 = o ∧
        "fail_visible" ∈ (lockableLock o
          (can_see whatLoc whatIsExit whatSource selfLoc selfId) lockedByOther).2) ∧
      ((lockableUnlock o (can_see whatLoc whatIsExit whatSource selfLoc selfId)
          lockedByOther).1 = o ∧
        "fail_visible" ∈ (lockableUnlock o
          (can_see whatLoc whatIsExit whatSource selfLoc selfId) lockedByOther).2) := by
  intro o which lockedByOther whatLoc whatIsExit whatSource selfLoc selfId h
  rw [h]
  cases lockedByOther <;>
    simp [toggle_on, toggle_off, openableOpen, openableClose, lockableLock,
      lockableUnlock]

/-- Witness for C10: a Thing lying in another room (location 5, player in
room 2) is invisible and `toggle_on` fails with `fail_visible`. -/
theorem toggles_invisible_fail_visible_witness :
    toggle_on ⟨false, false⟩ .openT (can_see (some 5) false none (some 2) 1) =
      ⟨⟨false, false⟩, ["fail_visible"], [], false⟩ :=
  (toggles_invisible_fail_visible ⟨⟨false, false⟩, none⟩ .openT true (some 5)
    false none (some 2) 1 (by decide)).1

/-! ### C5: serialization round trip -/

/-- Claim C5 evaluation at the failing input: reconstructing any Player
from its own `to_dict` record reproduces every field except `home`,
which is silently reset to `None` (`Player.__init__` never reads
`data["home"]`); hence for a player with a home set, the round-tripped
`to_dict` output differs from the original, refuting field-for-field
identity for the Player variant. -/
theorem player_roundtrip_drops_home :
    (∀ p : PlayerSt,
      playerToDict (playerFromData (playerToDict p)) =
        { playerToDict p with home := none }) ∧
    playerToDict (playerFromData (playerToDict c5Player)) ≠ playerToDict c5Player := by
  exact ⟨fun p => rfl, by decide⟩

/-! ### C8: command cache staleness -/

/-- Claim C8 evaluation at the failing input: with class table
`{look: [0]}`, calling `get_commands()` once fills the per-instance
cache; `register_command` then adds verb "xyzzy" (entry 7) at the
instance level; a subsequent cached `get_commands("xyzzy")` returns the
stale empty list — the new entry is invisible — while bypassing the
cache (`allow_cached=False`) does return it, showing the cache is never
invalidated. -/
theorem register_command_invisible_after_cache :
    (get_commands [[("look", [0])]]
        (register_command
          (get_commands [[("look", [0])]] ⟨[], []⟩ none true).2 ["xyzzy"] 7)
        (some "xyzzy") true).1 = [("xyzzy", [])] ∧
    (get_commands [[("look", [0])]]
        (register_command
          (get_commands [[("look", [0])]] ⟨[], []⟩ none true).2 ["xyzzy"] 7)
        (some "xyzzy") false).1 = [("xyzzy", [7])] := by
  decide

/-! ### C4: container scenario -/

/-- Claim C4 counterexample: with the chest closed (`is_open = false`) and
the gem inside, the command "take gem from chest" still resolves to
`Containable.take_from` on the chest, which moves the gem into the
player's contents and reports the `take_from` success message — there is
no closed-container failure and the gem does not stay in the chest. -/
theorem take_from_closed_chest_succeeds :
    c4ChestClosed.st.isOpen = false ∧
    processCommand c4World "take gem from chest" =
      .invoked 3 10 ["gem"] (some "from") "take" ∧
    (take_from c4CS c4NameOf c4AliasOf 3 1 (some 2) "gem").1.location 4 = some 1 ∧
    (take_from c4CS c4NameOf c4AliasOf 3 1 (some 2) "gem").1.contents 3 = [] ∧
    (take_from c4CS c4NameOf c4AliasOf 3 1 (some 2) "gem").1.contents 1 = [4] ∧
    (take_from c4CS c4NameOf c4AliasOf 3 1 (some 2) "gem").2 = ["take_from"] := by
  decide

/-- Claim C4 (amended): "take gem from chest" resolves to
`Containable.take_from` and succeeds — the gem moves from the chest's
contents to the player's contents with the `take_from` message —
regardless of the chest's `is_open` state, because `take_from` never
consults it; "open chest" resolves to `Openable.open` and does open the
closed chest, after which the same take command behaves identically. -/
theorem take_from_ignores_open_state :
    processCommand c4World "open chest" = .invoked 3 12 [] none "open" ∧
    openableOpen c4ChestClosed true =
      (⟨⟨true, false⟩, none⟩,
        ⟨⟨true, false⟩, ["toggle_open_on"], ["toggle_open_on_others"], true⟩) ∧
    processCommand c4World "take gem from chest" =
      .invoked 3 10 ["gem"] (some "from") "take" ∧
    (take_from c4CS c4NameOf c4AliasOf 3 1 (some 2) "gem").1.location 4 = some 1 ∧
    (take_from c4CS c4NameOf c4AliasOf 3 1 (some 2) "gem").2 = ["take_from"] := by
  decide

/-! ### Pipeline helper lemmas (shared by C2 and C7) -/

theorem truthyStr_false (o : Option String) (h : truthyStr o = false) :
    o = none ∨ o = some "" := by
  cases o <;> simp_all [truthyStr]

theorem truthyPreps_false (o : Option (List String)) (h : truthyPreps o = false) :
    o = none ∨ o = some [] := by
  cases o <;> simp_all [truthyPreps]

/-- Reduction of `processCommand` to the generic candidate search when the
line is not empty, not a sigil command, not one of the say/emote/eval
verb forms, and not a direction. -/
theorem processCommand_general (w : WState) (argstr w1 : String) (wrest : List String)
    (hsplit : pySplitWS argstr = w1 :: wrest)
    (h1 : ¬(pyHead argstr = quoteChar ∨ pyHead argstr = '"'))
    (h2 : w1 ≠ "say")
    (h3 : ¬(pyHead argstr = ':' ∨ pyHead argstr = ';'))
    (h4 : w1 ≠ "emote")
    (h5 : pyHead argstr ≠ '|')
    (h6 : w1 ≠ "eval")
    (h7 : lookupStr exitAbbrevs argstr = none)
    (h8 : argstr ∉ exitAbbrevs.map Prod.snd) :
    processCommand w argstr =
      candsTry (pyStrip (pyReplaceFirst argstr w1)) w1 (wrest = []) (searchOrder w) := by
  unfold processCommand
  rw [hsplit]
  unfold processWords
  rw [h7]
  simp only [if_neg h1, if_neg h2, if_neg h3, if_neg h4, if_neg h5, if_neg h6,
    if_neg h8]

/-- The candidate loop returns the first candidate's outcome when all
earlier candidates produce none. -/
theorem candsTry_first (argRest w1 : String) (len1 : Bool)
    (pre : List Cand) (a : Cand) (post : List Cand) (oa : Outcome)
    (hpre : ∀ c ∈ pre, candTry c argRest w1 len1 = none)
    (ha : candTry a argRest w1 len1 = some oa) :
    candsTry argRest w1 len1 (pre ++ a :: post) = oa := by
  induction pre with
  | nil => simp [candsTry, ha]
  | cons c cs ih =>
    have hc := hpre c (by simp)
    simp only [List.cons_append, candsTry, hc]
    exact ih fun c' h' => hpre c' (by simp [h'])

/-- An entry that accepts a bare verb only (all three grammar fields falsy)
is transparent on a line that carries trailing argument text. -/
theorem entriesTry_skip (c : Cand) (argRest w1 : String) (e : Entry)
    (es : List Entry) (he : entryAny e = false) :
    entriesTry c argRest w1 false (e :: es) = entriesTry c argRest w1 false es := by
  have h0 := he
  simp only [entryAny, Bool.or_eq_false_iff] at h0
  obtain ⟨⟨hd, hp⟩, _⟩ := h0
  rcases truthyPreps_false e.prep hp with hpn | hpe
  · rcases truthyStr_false e.dobj hd with hdn | hde
    · cases es with
      | nil => simp [entriesTry, hpn, hdn]
      | cons f t => simp [entriesTry, hpn, hdn]
    · cases es with
      | nil => simp [entriesTry, hpn, hde]
      | cons f t => simp [entriesTry, hpn, hde]
  · cases es with
    | nil => simp [entriesTry, hpe, entryPrepTry]
    | cons f t => simp [entriesTry, hpe, entryPrepTry]

/-- An entry list of bare-only entries produces no outcome on a line with
trailing text. -/
theorem entriesTry_none_of_all_bare (c : Cand) (argRest w1 : String)
    (L : List Entry) (hall : ∀ e ∈ L, entryAny e = false) :
    entriesTry c argRest w1 false L = none := by
  induction L with
  | nil => rfl
  | cons e es ih =>
    rw [entriesTry_skip c argRest w1 e es (hall e (by simp))]
    exact ih fun e' h' => hall e' (by simp [h'])

/-- A candidate whose entries for the verb are all bare produces no outcome
on a line with trailing text. -/
theorem candTry_none_of_all_bare (c : Cand) (argRest w1 : String)
    (hall : ∀ e ∈ lookupVerb c w1, entryAny e = false) :
    candTry c argRest w1 false = none :=
  entriesTry_none_of_all_bare c argRest w1 (lookupVerb c w1) hall

/-- When every candidate's entries for the verb are bare-only and the line
has trailing text, the whole search falls through to the generic
failure. -/
theorem candsTry_failMatch_of_all_bare (argRest w1 : String) (cands : List Cand)
    (hall : ∀ c ∈ cands, ∀ e ∈ lookupVerb c w1, entryAny e = false) :
    candsTry argRest w1 false cands = .failMatch := by
  induction cands with
  | nil => rfl
  | cons c cs ih =>
    have hc := candTry_none_of_all_bare c argRest w1 (hall c (by simp))
    simp only [candsTry, hc]
    exact ih fun c' h' => hall c' (by simp [h'])

/-! ### C2: fixed candidate order, first match wins -/

/-- Claim C2: for a non-empty, non-sigil, non-direction line (and not one
of the `say`/`emote`/`eval` word shortcuts, which bypass the search),
the pipeline searches exactly
`player :: location :: inventory ++ room contents ++ exits ++ [World]`,
and the first candidate in that order whose grammar entries produce an
outcome determines the result: if every candidate before `a` produces
none and `a` produces `oa`, the command's result is `oa` — so of two
candidates that both register a matching grammar for the verb, the one
earlier in the fixed order wins. -/
theorem resolution_fixed_order_first_match :
    ∀ (w : WState) (argstr w1 : String) (wrest : List String)
      (pre : List Cand) (a : Cand) (post : List Cand) (oa : Outcome),
      pySplitWS argstr = w1 :: wrest →
      ¬(pyHead argstr = quoteChar ∨ pyHead argstr = '"') →
      w1 ≠ "say" →
      ¬(pyHead argstr = ':' ∨ pyHead argstr = ';') →
      w1 ≠ "emote" →
      pyHead argstr ≠ '|' →
      w1 ≠ "eval" →
      lookupStr exitAbbrevs argstr = none →
      argstr ∉ exitAbbrevs.map Prod.snd →
      (searchOrder w =
        w.player :: w.location ::
          (w.playerContents ++ w.locationContents ++ w.locationExits ++ [worldCand])) ∧
      (searchOrder w = pre ++ a :: post →
        (∀ c ∈ pre, candTry c (pyStrip (pyReplaceFirst argstr w1)) w1 (wrest = []) = none) →
        candTry a (pyStrip (pyReplaceFirst argstr w1)) w1 (wrest = []) = some oa →
        processCommand w argstr = oa) := by
  intro w argstr w1 wrest pre a post oa hsplit h1 h2 h3 h4 h5 h6 h7 h8
  refine ⟨rfl, fun hso hpre ha => ?_⟩
  rw [processCommand_general w argstr w1 wrest hsplit h1 h2 h3 h4 h5 h6 h7 h8, hso]
  exact candsTry_first _ w1 _ pre a post oa hpre ha

/-- Witness for C2: on the line "ping", the location and an item in the
room both register a bare "ping" grammar (handlers 20 and 21); the
location is earlier in the fixed order, so handler 20 is invoked. -/
theorem resolution_fixed_order_first_match_witness :
    processCommand c2W "ping" = .invoked 2 20 [] none "ping" :=
  (resolution_fixed_order_first_match c2W "ping" "ping" [] [c2Player] c2Loc
      [c2Item, worldCand] (.invoked 2 20 [] none "ping")
      (by decide) (by decide) (by decide) (by decide) (by decide) (by decide)
      (by decide) (by decide) (by decide)).2
    (by decide) (by decide) (by decide)

/-! ### C7: bare grammars match bare verbs only -/

/-- Claim C7: a grammar entry whose direct-object role, preposition set
and indirect-object role are all unset (Python-falsy) matches a bare
verb — when the line is the bare verb, the first such entry reached is
invoked with no arguments — and never matches a line with trailing
argument text: there such an entry is skipped, and if every registered
entry for the verb is of that shape the search ends in the generic
`fail_command_match` failure. -/
theorem bare_grammar_bare_verb_only :
    (∀ (c : Cand) (e : Entry) (es : List Entry) (argRest w1 : String),
      entryAny e = false →
      entriesTry c argRest w1 true (e :: es) =
        some (.invoked c.cid e.func [] none w1)) ∧
    (∀ (c : Cand) (e : Entry) (es : List Entry) (argRest w1 : String),
      entryAny e = false →
      entriesTry c argRest w1 false (e :: es) = entriesTry c argRest w1 false es) ∧
    (∀ (w : WState) (argstr w1 : String) (wrest : List String),
      pySplitWS argstr = w1 :: wrest →
      wrest ≠ [] →
      ¬(pyHead argstr = quoteChar ∨ pyHead argstr = '"') →
      w1 ≠ "say" →
      ¬(pyHead argstr = ':' ∨ pyHead argstr = ';') →
      w1 ≠ "emote" →
      pyHead argstr ≠ '|' →
      w1 ≠ "eval" →
      lookupStr exitAbbrevs argstr = none →
      argstr ∉ exitAbbrevs.map Prod.snd →
      (∀ c ∈ searchOrder w, ∀ e ∈ lookupVerb c w1, entryAny e = false) →
      processCommand w argstr = .failMatch) := by
  refine ⟨?_, ?_, ?_⟩
  · intro c e es argRest w1 he
    simp [entriesTry, he]
  · intro c e es argRest w1 he
    exact entriesTry_skip c argRest w1 e es he
  · intro w argstr w1 wrest hsplit hne h1 h2 h3 h4 h5 h6 h7 h8 hall
    rw [processCommand_general w argstr w1 wrest hsplit h1 h2 h3 h4 h5 h6 h7 h8]
    rw [decide_eq_false hne]
    exact candsTry_failMatch_of_all_bare _ w1 (searchOrder w) hall

/-- Witness for C7: the bare "ping" entry fires on the bare line and the
line "ping extra" falls through every bare-only grammar to the generic
failure. -/
theorem bare_grammar_bare_verb_only_witness :
    entriesTry c2Loc "" "ping" true [pingEntry] =
      some (.invoked 2 20 [] none "ping") ∧
    processCommand c2W "ping extra" = .failMatch :=
  ⟨bare_grammar_bare_verb_only.1 c2Loc pingEntry [] "" "ping" (by decide),
   bare_grammar_bare_verb_only.2.2 c2W "ping extra" "ping" ["extra"]
     (by decide) (by decide) (by decide) (by decide) (by decide) (by decide)
     (by decide) (by decide) (by decide) (by decide) (by decide)⟩

end Azimuth
